import Mathlib

/-!
Shallow embedding of the cenele chapter-reader core:

* the Page Parser and Remote Chapter Fetcher (`src/lib/fetch` source,
  `extractChapterData` / `fetchChapter`),
* the Chapter Window Manager of the refactored reader
  (`loadNextChapter` / `updateChapters` / `restoreScrollPosition` /
  `calculateScrollPercentage` in the unnamed reader component),
* the older reader's `loadNextChapter` from `ChapterPage.tsx`.

JavaScript numbers that can be `NaN` are modelled by `JSNum`; JavaScript
union values (`undefined` / `null` / string) that flow through the optional
chains of the parser are modelled by `JSVal`.  Pixel quantities are `Int`,
scroll-percentage arithmetic is over `ℚ`.  Network and DOM effects are made
explicit: the fetch outcome is an input, the DOM lookup is an oracle
function, and side effects (navigation, logging, scroll commands) are
returned as data.
-/

namespace Cenele

/-- A JavaScript number: either `NaN` or an (integer-valued) number.  The
attribute values parsed by the reader are integers, so the numeric payload
is `Int`. -/
inductive JSNum where
  | nan : JSNum
  | num : Int → JSNum
deriving DecidableEq, Repr

/-- A JavaScript value as produced by the optional chains of the parser:
`undefined`, `null`, a string, or a number. -/
inductive JSVal where
  | undef : JSVal
  | null : JSVal
  | str : String → JSVal
  | jsnum : JSNum → JSVal
deriving DecidableEq, Repr

/-- JavaScript strict equality (`===`).  `NaN === x` is false for every
`x`, including `NaN` itself. -/
def jsStrictEq : JSVal → JSVal → Bool
  | .undef, .undef => true
  | .null, .null => true
  | .str a, .str b => a == b
  | .jsnum (.num a), .jsnum (.num b) => a == b
  | _, _ => false

/-- JavaScript truthiness of the values that can reach the parser's
conditional: `undefined`, `null`, `""`, `NaN` and `0` are falsy. -/
def truthy : JSVal → Bool
  | .undef => false
  | .null => false
  | .str s => s ≠ ""
  | .jsnum .nan => false
  | .jsnum (.num v) => v ≠ 0

/-- JavaScript string trimming (`String.prototype.trim`), over the
character list. -/
def jsTrim (s : String) : String :=
  String.mk (((s.data.dropWhile Char.isWhitespace).reverse.dropWhile
    Char.isWhitespace).reverse)

/-- Digit-string value. -/
def digitsVal (cs : List Char) : Int :=
  cs.foldl (fun a c => a * 10 + ((c.toNat : Int) - 48)) 0

/-- `Number(s)` on an attribute string, for the integer-shaped strings the
site uses: the empty/whitespace string converts to `0`, an optionally
signed digit string to its value, anything else to `NaN`. -/
def stringToNumber (s : String) : JSNum :=
  match (jsTrim s).data with
  | [] => .num 0
  | t =>
    if t.all Char.isDigit then .num (digitsVal t)
    else
      match t with
      | c :: rest =>
        if c = Char.ofNat 45 ∧ rest ≠ [] ∧ rest.all Char.isDigit then
          .num (-(digitsVal rest))
        else .nan
      | [] => .nan

/-- `Number(v)` on the values an optional attribute chain can produce:
`Number(undefined) = NaN`, `Number(null) = 0`, strings are parsed. -/
def jsToNumber : JSVal → JSNum
  | .undef => .nan
  | .null => .num 0
  | .str s => stringToNumber s
  | .jsnum n => n

/-- The DOM facts `extractChapterData` queries.  For the two attribute
chains, `none` means the element is absent (`querySelector` returns
`null`, the chain yields `undefined`), `some none` means the element
exists but the attribute is absent (`getAttribute` returns `null`), and
`some (some s)` is the attribute string.  The remaining fields are the
text/markup of the optional heading and content containers. -/
structure Doc where
  bookmarkDataChapter : Option (Option String)
  currentChapDataId : Option (Option String)
  chapterHeading : Option String
  textRight : Option String
  readingContent : Option String
  textLeft : Option String
deriving DecidableEq, Repr

/-- Value of `bookmarkButton?.getAttribute(...)`-style optional chains. -/
def optChainAttr : Option (Option String) → JSVal
  | none => .undef
  | some none => .null
  | some (some s) => .str s

/-- The parsed chapter record (`ChapterData` in the source). -/
structure ChapterData where
  id : JSNum
  uri : String
  title : String
  content : String
deriving DecidableEq, Repr

/-- The `chapterId` computed by `extractChapterData`:
`chapterIdStr ? Number(chapterIdStr) : Number(currentChap?.getAttribute("data-id"))`. -/
def chapterIdOf (doc : Doc) : JSNum :=
  let chapterIdStr := optChainAttr doc.bookmarkDataChapter
  if truthy chapterIdStr then jsToNumber chapterIdStr
  else jsToNumber (optChainAttr doc.currentChapDataId)

/-- Whether the parser's `chapterId === null` diagnostic branch fires. -/
def idNullDiagnostic (doc : Doc) : Bool :=
  jsStrictEq (.jsnum (chapterIdOf doc)) .null

/-- `extractChapterData(doc, uri)`: identifier from the bookmark button's
`data-chapter` attribute with fallback to `#wp-manga-current-chap`'s
`data-id`; trimmed heading text with a literal fallback; first matching
content container with a literal error placeholder; `uri` passed through. -/
def extractChapterData (doc : Doc) (uri : String) : ChapterData :=
  { id := chapterIdOf doc
    uri := uri
    title :=
      match doc.chapterHeading with
      | some s => jsTrim s
      | none => "Chapter Title Missing"
    content :=
      match doc.textRight with
      | some c => c
      | none =>
        match doc.readingContent with
        | some c => c
        | none =>
          match doc.textLeft with
          | some c => c
          | none => "<p>Error: Chapter content not found.</p>" }

/-- The network outcome of `await fetch(url)`: either the promise rejects
(network-level failure) or a response with a status code and body
document arrives. -/
inductive FetchOutcome where
  | networkError : FetchOutcome
  | response : Nat → Doc → FetchOutcome
deriving Repr

/-- What `fetchChapter` does control-flow-wise: return a value
(`ChapterData` or `null`) or let an exception propagate. -/
inductive FetchResult where
  | returned : Option ChapterData → FetchResult
  | threw : FetchResult
deriving DecidableEq, Repr

/-- The observable behaviour of one `fetchChapter` call: its result plus
whether it navigated the browser (`location.href = url`) and whether it
logged an error. -/
structure FetchOutput where
  result : FetchResult
  navigated : Bool
  logged : Bool
deriving DecidableEq, Repr

/-- `fetchChapter({url, title})` under a given network outcome.
`response.ok` is status 200–299.  A rejected `fetch` promise propagates
(there is no try/catch in `fetchChapter`). -/
def fetchChapter (url : String) (o : FetchOutcome) : FetchOutput :=
  match o with
  | .networkError => { result := .threw, navigated := false, logged := false }
  | .response status doc =>
    if 200 ≤ status ∧ status ≤ 299 then
      { result := .returned (some (extractChapterData doc url)), navigated := false
        logged := false }
    else if status = 404 then
      { result := .returned none, navigated := false, logged := true }
    else if status = 403 then
      { result := .returned none, navigated := true, logged := true }
    else
      { result := .returned none, navigated := false, logged := true }

/-! ## Chapter Window Manager -/

/-- One entry of the externally supplied table of contents
(the `Chapter` interface: `availableChapters`). -/
structure TocChapter where
  id : Int
  value : String
  text : String
  selected : Bool
deriving DecidableEq, Repr, Inhabited

/-- A pending scroll anchor (`scrollAnchorInfo`). -/
structure Anchor where
  id : JSNum
  offset : Int
deriving DecidableEq, Repr

/-- DOM context for one advance: the current `window.scrollY` and the
`document.getElementById("chapter-" + id).offsetTop` oracle. -/
structure Ctx where
  scrollY : Int
  lookup : JSNum → Option Int

/-- Reader state: the signals `chapters`, `nextChapterIndex`,
`lastChapter`, `fetching`, `scrollAnchorInfo`. -/
structure RState where
  chapters : List ChapterData
  nextIndex : Int
  lastChapter : Bool
  fetching : Bool
  anchor : Option Anchor
deriving DecidableEq, Repr

/-- Anchor computed in the eviction branch of `updateChapters`: anchor to
`prevChapters[1]`; if its element is found, store
`window.scrollY - anchorElement.offsetTop`, otherwise clear the anchor. -/
def anchorFor (ctx : Ctx) (prev : List ChapterData) : Option Anchor :=
  match prev with
  | _ :: b :: _ =>
    match ctx.lookup b.id with
    | some top => some { id := b.id, offset := ctx.scrollY - top }
    | none => none
  | _ => none

/-- `updateChapters(newChapter)`: when the window already holds at least 3
chapters, record the anchor and replace the window with
`prevChapters.slice(1) ++ [newChapter]`; otherwise clear the anchor and
append. -/
def updateChapters (ctx : Ctx) (prev : List ChapterData) (newC : ChapterData) :
    List ChapterData × Option Anchor :=
  if 3 ≤ prev.length then (prev.drop 1 ++ [newC], anchorFor ctx prev)
  else (prev ++ [newC], none)

/-- The outcome of the awaited fetch inside `loadNextChapter`: a chapter
record, `null`, or a thrown exception. -/
inductive Outcome where
  | record : ChapterData → Outcome
  | nullResult : Outcome
  | threw : Outcome
deriving DecidableEq, Repr

/-- `loadNextChapter` of the refactored reader, as a state transition.
The boolean reports whether a fetch was issued.  Guards: in-flight or
exhausted is a no-op; a cursor equal to, above, or below the table of
contents range sets `lastChapter`.  Otherwise a fetch happens: a record
updates the window and advances the cursor, `null` sets `lastChapter` and
clears the anchor, a thrown exception is caught and only the `finally`
`setFetching(false)` runs. -/
def advance (toc : List TocChapter) (s : RState) (ctx : Ctx) (o : Outcome) :
    RState × Bool :=
  if s.fetching || s.lastChapter then (s, false)
  else if s.nextIndex = (toc.length : Int) ∨ (toc.length : Int) < s.nextIndex ∨
      s.nextIndex < 0 then
    ({ s with lastChapter := true }, false)
  else
    match o with
    | .record c =>
      let u := updateChapters ctx s.chapters c
      ({ s with chapters := u.1, anchor := u.2, nextIndex := s.nextIndex + 1,
                fetching := false }, true)
    | .nullResult =>
      ({ s with lastChapter := true, anchor := none, fetching := false }, true)
    | .threw => ({ s with fetching := false }, true)

/-- `loadNextChapter` of the older `ChapterPage.tsx` reader.  It has no
cursor-range guard and no try/catch: with the cursor outside the table of
contents, `availableChapters[nextChpaterIndex()]` is `undefined` and
reading `.value` throws after `setFetching(true)`, so `fetching` stays
true; likewise a thrown fetch skips the trailing `setFetching(false)`.
Its window-update logic is the same code later factored into
`updateChapters`. -/
def advanceTsx (toc : List TocChapter) (s : RState) (ctx : Ctx) (o : Outcome) :
    RState × Bool :=
  if s.fetching || s.lastChapter then (s, false)
  else if s.nextIndex < 0 ∨ (toc.length : Int) ≤ s.nextIndex then
    ({ s with fetching := true }, false)
  else
    match o with
    | .record c =>
      let u := updateChapters ctx s.chapters c
      ({ s with chapters := u.1, anchor := u.2, nextIndex := s.nextIndex + 1,
                fetching := false }, true)
    | .nullResult =>
      ({ s with lastChapter := true, anchor := none, fetching := false }, true)
    | .threw => ({ s with fetching := true }, true)

/-- Map a `fetchChapter` control-flow result to the `loadNextChapter`
branch it selects. -/
def outcomeOfFetch : FetchResult → Outcome
  | .returned (some c) => .record c
  | .returned none => .nullResult
  | .threw => .threw

/-- One full advance driven by an HTTP-level outcome: `loadNextChapter`
composed with `fetchChapter` on the locator at the cursor. -/
def advanceHttp (toc : List TocChapter) (s : RState) (ctx : Ctx)
    (fo : FetchOutcome) : RState × Bool :=
  advance toc s ctx
    (outcomeOfFetch (fetchChapter (toc.getD s.nextIndex.toNat default).value fo).result)

/-- The seeded initial state: one-element window holding the initially
displayed chapter, cursor at `initialChapterIndex + 1`, flags clear. -/
def initState (c0 : ChapterData) (initialChapterIndex : Int) : RState :=
  { chapters := [c0], nextIndex := initialChapterIndex + 1, lastChapter := false
    fetching := false, anchor := none }

/-! ## Scroll Anchor Restorer and Scroll Trigger -/

/-- A `window.scrollTo` request: target offset and whether the behaviour
is `"instant"` (as opposed to smooth). -/
structure ScrollCmd where
  top : Int
  behaviorInstant : Bool
deriving DecidableEq, Repr

/-- `restoreScrollPosition`: with no anchor, return immediately.  With an
anchor, look up its element; if found, scroll instantly to
`offsetTop + anchor.offset`; either way clear the anchor.  Returns the
issued scroll command (if any) and the anchor after the call. -/
def restoreScrollPosition (anchor : Option Anchor) (lookup : JSNum → Option Int) :
    Option ScrollCmd × Option Anchor :=
  match anchor with
  | none => (none, none)
  | some a =>
    match lookup a.id with
    | some top => (some { top := top + a.offset, behaviorInstant := true }, none)
    | none => (none, none)

/-- `calculateScrollPercentage` on the geometry `(rect.top, rect.height,
windowHeight)`, over ℚ. -/
def calculateScrollPercentage (top height viewportHeight : ℚ) : ℚ :=
  if top ≤ -height then 100
  else if viewportHeight ≤ top then 0
  else if height = 0 then 0
  else min 100 (max 0 (-top) / height * 100)

/-! ## Concrete sample inputs used by witnesses and counterexamples -/

/-- A concrete chapter record with identifier `i`. -/
def chap (i : Int) : ChapterData := { id := .num i, uri := "", title := "", content := "" }

/-- A concrete table-of-contents entry. -/
def tocEntry (i : Int) : TocChapter := { id := i, value := "", text := "", selected := false }

/-- A five-chapter table of contents. -/
def toc5 : List TocChapter := [tocEntry 0, tocEntry 1, tocEntry 2, tocEntry 3, tocEntry 4]

/-- A DOM context whose every element sits at offset 0 with scroll 0. -/
def ctx0 : Ctx := { scrollY := 0, lookup := fun _ => some 0 }

/-- A source page on which every queried element is absent. -/
def emptyDoc : Doc :=
  { bookmarkDataChapter := none
    currentChapDataId := none
    chapterHeading := none
    textRight := none
    readingContent := none
    textLeft := none }

/-- A source page with no bookmark button but with a current-chapter
element that lacks the `data-id` attribute. -/
def docAttrMissing : Doc := { emptyDoc with currentChapDataId := some none }

/-- One successful advance of the concrete scenario, fetching chapter `i`. -/
def scenarioStep (s : RState) (i : Int) : RState :=
  (advance toc5 s ctx0 (.record (chap i))).1

/-- Scenario states: seed `[chap 0]`, then three successful advances. -/
def scenario1 : RState := scenarioStep (initState (chap 0) 0) 1

def scenario2 : RState := scenarioStep scenario1 2

def scenario3 : RState := scenarioStep scenario2 3

/-- A window already holding three chapters. -/
def threeChapterState : RState :=
  { chapters := [chap 0, chap 1, chap 2]
    nextIndex := 3
    lastChapter := false
    fetching := false
    anchor := none }

/-- A state whose exhaustion flag is set. -/
def exhaustedState : RState :=
  { chapters := [chap 0]
    nextIndex := 2
    lastChapter := true
    fetching := false
    anchor := none }

/-- A state whose cursor sits exactly at the table-of-contents length. -/
def cursorPastEnd : RState :=
  { chapters := [chap 0]
    nextIndex := 5
    lastChapter := false
    fetching := false
    anchor := none }

/-! ## Helper lemmas -/

/-- The scroll percentage is never negative. -/
lemma csp_nonneg (t h v : ℚ) : 0 ≤ calculateScrollPercentage t h v := by
  unfold calculateScrollPercentage
  split_ifs with h1 h2 h3
  · norm_num
  · norm_num
  · norm_num
  · rcases lt_trichotomy h 0 with hneg | hz | hpos
    · have hmax : max 0 (-t) = 0 := by
        apply max_eq_left
        push_neg at h1
        linarith
      rw [hmax]
      norm_num
    · exact absurd hz h3
    · have hge : 0 ≤ max 0 (-t) / h * 100 := by positivity
      exact le_min (by norm_num) hge

/-- The scroll percentage never exceeds 100. -/
lemma csp_le_100 (t h v : ℚ) : calculateScrollPercentage t h v ≤ 100 := by
  unfold calculateScrollPercentage
  split_ifs
  · norm_num
  · norm_num
  · norm_num
  · exact min_le_left _ _

/-- The scroll percentage does not decrease as the element's top moves
up (i.e. as `top` decreases), for fixed height and viewport height. -/
lemma csp_anti (h v t t' : ℚ) (hle : t' ≤ t) :
    calculateScrollPercentage t h v ≤ calculateScrollPercentage t' h v := by
  by_cases c1 : t ≤ -h
  · have c1' : t' ≤ -h := le_trans hle c1
    unfold calculateScrollPercentage
    rw [if_pos c1, if_pos c1']
  · by_cases c2 : v ≤ t
    · have hz : calculateScrollPercentage t h v = 0 := by
        unfold calculateScrollPercentage
        rw [if_neg c1, if_pos c2]
      rw [hz]
      exact csp_nonneg t' h v
    · by_cases c3 : h = 0
      · have hz : calculateScrollPercentage t h v = 0 := by
          unfold calculateScrollPercentage
          rw [if_neg c1, if_neg c2, if_pos c3]
        rw [hz]
        exact csp_nonneg t' h v
      · have ht : calculateScrollPercentage t h v = min 100 (max 0 (-t) / h * 100) := by
          unfold calculateScrollPercentage
          rw [if_neg c1, if_neg c2, if_neg c3]
        by_cases d1 : t' ≤ -h
        · have h100 : calculateScrollPercentage t' h v = 100 := by
            unfold calculateScrollPercentage
            rw [if_pos d1]
          rw [h100]
          exact csp_le_100 t h v
        · have d2 : ¬v ≤ t' := fun hv' => c2 (le_trans hv' hle)
          have ht' : calculateScrollPercentage t' h v = min 100 (max 0 (-t') / h * 100) := by
            unfold calculateScrollPercentage
            rw [if_neg d1, if_neg d2, if_neg c3]
          rw [ht, ht']
          rcases lt_or_gt_of_ne c3 with hneg | hpos
          · have h1 : max 0 (-t) = 0 := by
              apply max_eq_left
              push_neg at c1
              linarith
            have h2 : max 0 (-t') = 0 := by
              apply max_eq_left
              push_neg at d1
              linarith
            rw [h1, h2]
          · have hm : max 0 (-t) ≤ max 0 (-t') := max_le_max le_rfl (by linarith)
            have hdiv : max 0 (-t) / h ≤ max 0 (-t') / h :=
              (div_le_div_iff_of_pos_right hpos).mpr hm
            have hmul : max 0 (-t) / h * 100 ≤ max 0 (-t') / h * 100 :=
              mul_le_mul_of_nonneg_right hdiv (by norm_num)
            exact min_le_min le_rfl hmul

/-- One settled `advance` keeps the window length in `[1, 3]`. -/
lemma advance_chapters_length (toc : List TocChapter) (s : RState) (ctx : Ctx) (o : Outcome)
    (h1 : 1 ≤ s.chapters.length) (h3 : s.chapters.length ≤ 3) :
    1 ≤ (advance toc s ctx o).1.chapters.length ∧
      (advance toc s ctx o).1.chapters.length ≤ 3 := by
  unfold advance
  split_ifs with hg hr
  · exact ⟨h1, h3⟩
  · exact ⟨h1, h3⟩
  · cases o with
    | record c =>
      simp only [updateChapters]
      split_ifs with hw
      · simp only [List.length_append, List.length_drop, List.length_cons, List.length_nil]
        omega
      · simp only [List.length_append, List.length_cons, List.length_nil]
        omega
    | nullResult => exact ⟨h1, h3⟩
    | threw => exact ⟨h1, h3⟩

/-- Any run of settled `advance` calls keeps the window length in `[1, 3]`,
given it starts there. -/
lemma advance_run_length (toc : List TocChapter) (inputs : List (Ctx × Outcome)) :
    ∀ s : RState, 1 ≤ s.chapters.length → s.chapters.length ≤ 3 →
      1 ≤ (inputs.foldl (fun st p => (advance toc st p.1 p.2).1) s).chapters.length ∧
        (inputs.foldl (fun st p => (advance toc st p.1 p.2).1) s).chapters.length ≤ 3 := by
  induction inputs with
  | nil =>
    intro s h1 h3
    exact ⟨h1, h3⟩
  | cons p rest ih =>
    intro s h1 h3
    have h := advance_chapters_length toc s p.1 p.2 h1 h3
    simpa using ih _ h.1 h.2

/-! ## Claims -/

/-- C1: for every window of length at least 3 and every successfully
fetched chapter record `r`, the advance operation replaces the window
with the previous window's elements at indices 1..end followed by `r`:
oldest dropped, new record appended last. -/
theorem advance_eviction_correct (toc : List TocChapter) (s : RState) (ctx : Ctx)
    (r : ChapterData) (hf : s.fetching = false) (hl : s.lastChapter = false)
    (h0 : 0 ≤ s.nextIndex) (hr : s.nextIndex < (toc.length : Int))
    (hw : 3 ≤ s.chapters.length) :
    (advance toc s ctx (.record r)).1.chapters = s.chapters.drop 1 ++ [r] := by
  have hcond : ¬(s.nextIndex = (toc.length : Int) ∨ (toc.length : Int) < s.nextIndex ∨
      s.nextIndex < 0) := by omega
  simp [advance, hf, hl, hcond, updateChapters, hw]

/-- Witness for C1: a three-chapter window evicts its head and appends
the fetched record. -/
theorem advance_eviction_correct_witness :
    (advance toc5 threeChapterState ctx0 (.record (chap 3))).1.chapters =
      threeChapterState.chapters.drop 1 ++ [chap 3] :=
  advance_eviction_correct toc5 threeChapterState ctx0 (chap 3) rfl rfl
    (by decide) (by decide) (by decide)

/-- C2: starting from the seeded one-element window, after any sequence of
settled `advance` calls the window length satisfies `1 ≤ length ≤ 3`. -/
theorem window_length_invariant (c0 : ChapterData) (initialChapterIndex : Int)
    (toc : List TocChapter) (inputs : List (Ctx × Outcome)) :
    1 ≤ (inputs.foldl (fun st p => (advance toc st p.1 p.2).1)
        (initState c0 initialChapterIndex)).chapters.length ∧
      (inputs.foldl (fun st p => (advance toc st p.1 p.2).1)
        (initState c0 initialChapterIndex)).chapters.length ≤ 3 :=
  advance_run_length toc inputs _ (by simp [initState]) (by simp [initState])

/-- C7: once the exhaustion flag is set, `advance` is a no-op that leaves
the whole state (window, cursor, in-flight flag, scroll anchor) unchanged
and performs no fetch. -/
theorem exhaustion_sticky (toc : List TocChapter) (s : RState) (ctx : Ctx) (o : Outcome)
    (hl : s.lastChapter = true) : advance toc s ctx o = (s, false) := by
  unfold advance
  rw [hl]
  simp

/-- Witness for C7: a concrete exhausted state is left untouched. -/
theorem exhaustion_sticky_witness :
    advance toc5 exhaustedState ctx0 (.record (chap 1)) = (exhaustedState, false) :=
  exhaustion_sticky toc5 exhaustedState ctx0 (.record (chap 1)) rfl

/-- C8: with a scroll anchor present, a found anchor element with top `T`
yields an instant (non-smooth) scroll to exactly `T + pixelOffset`, and
the anchor is cleared unconditionally after the restoration attempt. -/
theorem anchor_restoration (i : JSNum) (off T : Int) (lookup : JSNum → Option Int) :
    (lookup i = some T →
      restoreScrollPosition (some { id := i, offset := off }) lookup =
        (some { top := T + off, behaviorInstant := true }, none)) ∧
    (restoreScrollPosition (some { id := i, offset := off }) lookup).2 = none := by
  constructor
  · intro h
    simp [restoreScrollPosition, h]
  · unfold restoreScrollPosition
    cases h : lookup i <;> simp [h]

/-- Witness for C8: with pixel offset 40 and element top 1000, the scroll
target is 1040 and the anchor is cleared. -/
theorem anchor_restoration_witness :
    restoreScrollPosition (some { id := .num 1, offset := 40 }) (fun _ => some 1000) =
      (some { top := 1000 + 40, behaviorInstant := true }, none) :=
  (anchor_restoration (.num 1) 40 1000 (fun _ => some 1000)).1 rfl

/-- C3 counterexample: the claim puts the first eviction on the 4th
advance, but in the code the 3rd successful advance already evicts: the
window after three advances is `[chap 1, chap 2, chap 3]`, not the
unevicted `[chap 0, chap 1, chap 2, chap 3]` the claim entails. -/
theorem eviction_timing_counterexample :
    scenario3.chapters = [chap 1, chap 2, chap 3] ∧
    scenario3.chapters ≠ scenario2.chapters ++ [chap 3] := by
  decide

/-- C3 amended: seeded `[chap 0]`, successful advances give
`[chap 0, chap 1]`, then `[chap 0, chap 1, chap 2]` with no eviction and
no anchor; the first eviction happens on the 3rd advance (the first call
made with the window at length 3), which anchors to `chap 1` and leaves
`[chap 1, chap 2, chap 3]`. -/
theorem eviction_timing_amended :
    scenario1.chapters = [chap 0, chap 1] ∧
    scenario2.chapters = [chap 0, chap 1, chap 2] ∧
    scenario2.anchor = none ∧
    scenario3.chapters = [chap 1, chap 2, chap 3] ∧
    scenario3.anchor = some { id := .num 1, offset := 0 } := by
  decide

/-- C4 counterexample: an HTTP 500 (a transient/unknown status) makes
`fetchChapter` return null, which `loadNextChapter` treats as exhaustion:
the flag is set and the next advance is a no-op that performs no fetch,
so one such failure does permanently exhaust the system. -/
theorem transient_status_counterexample :
    (advanceHttp toc5 (initState (chap 0) 0) ctx0 (.response 500 emptyDoc)).1.lastChapter =
      true ∧
    advance toc5 (advanceHttp toc5 (initState (chap 0) 0) ctx0
        (.response 500 emptyDoc)).1 ctx0 (.record (chap 1)) =
      ((advanceHttp toc5 (initState (chap 0) 0) ctx0 (.response 500 emptyDoc)).1, false) := by
  decide

/-- C4 amended: only for *thrown* failures (network-level errors and
parse exceptions) does the claim hold: the state — cursor included — is
left unchanged, the in-flight flag ends false, and a later advance still
performs a fetch.  (A non-2xx/404/403 HTTP status instead surfaces as a
null result and sets the exhaustion flag.) -/
theorem transient_throw_preserves_state (toc : List TocChapter) (s : RState)
    (ctx ctx2 : Ctx) (o2 : Outcome) (hf : s.fetching = false) (hl : s.lastChapter = false)
    (h0 : 0 ≤ s.nextIndex) (hr : s.nextIndex < (toc.length : Int)) :
    (advance toc s ctx .threw).1 = s ∧
    (advance toc s ctx .threw).1.fetching = false ∧
    (advance toc (advance toc s ctx .threw).1 ctx2 o2).2 = true := by
  have hcond : ¬(s.nextIndex = (toc.length : Int) ∨ (toc.length : Int) < s.nextIndex ∨
      s.nextIndex < 0) := by omega
  have hstate : (advance toc s ctx .threw).1 = s := by
    unfold advance
    simp only [hf, hl, Bool.or_self, Bool.false_eq_true, if_false, hcond, if_false]
    cases s
    simp_all
  refine ⟨hstate, ?_, ?_⟩
  · rw [hstate]
    exact hf
  · rw [hstate]
    unfold advance
    simp only [hf, hl, Bool.or_self, Bool.false_eq_true, if_false, hcond, if_false]
    cases o2 <;> simp

/-- Witness for C4: a thrown fetch at the seeded state leaves it intact
and a retry advance still fetches. -/
theorem transient_throw_witness :
    (advance toc5 (initState (chap 0) 0) ctx0 .threw).1 = initState (chap 0) 0 ∧
    (advance toc5 (initState (chap 0) 0) ctx0 .threw).1.fetching = false ∧
    (advance toc5 (advance toc5 (initState (chap 0) 0) ctx0 .threw).1 ctx0
      (.record (chap 1))).2 = true :=
  transient_throw_preserves_state toc5 (initState (chap 0) 0) ctx0 ctx0
    (.record (chap 1)) rfl rfl (by decide) (by decide)

/-- C5 counterexample: a network-level failure does not make
`fetchChapter` log and return null — the rejected `fetch` promise
propagates as an exception past the fetcher boundary. -/
theorem fetchChapter_network_counterexample :
    (fetchChapter "u" .networkError).result = .threw ∧
    (fetchChapter "u" .networkError).result ≠ .returned none := by
  decide

/-- C5 amended: for every received HTTP response, `fetchChapter` returns
the parsed record on 2xx, null on 404, navigates and returns null on 403,
logs and returns null on any other status, and never throws; a
network-level failure (rejected fetch promise), however, propagates as an
exception to the caller. -/
theorem fetchChapter_classification (url : String) (st : Nat) (doc : Doc) :
    (200 ≤ st ∧ st ≤ 299 →
      fetchChapter url (.response st doc) =
        { result := .returned (some (extractChapterData doc url)), navigated := false
          logged := false }) ∧
    (st = 404 →
      fetchChapter url (.response st doc) =
        { result := .returned none, navigated := false, logged := true }) ∧
    (st = 403 →
      fetchChapter url (.response st doc) =
        { result := .returned none, navigated := true, logged := true }) ∧
    (¬(200 ≤ st ∧ st ≤ 299) → st ≠ 404 → st ≠ 403 →
      fetchChapter url (.response st doc) =
        { result := .returned none, navigated := false, logged := true }) ∧
    (fetchChapter url (.response st doc)).result ≠ .threw := by
  refine ⟨?_, ?_, ?_, ?_, ?_⟩
  · intro h
    simp [fetchChapter, h]
  · intro h
    have hok : ¬(200 ≤ st ∧ st ≤ 299) := by omega
    simp [fetchChapter, hok, h]
  · intro h
    have hok : ¬(200 ≤ st ∧ st ≤ 299) := by omega
    have h404 : st ≠ 404 := by omega
    simp [fetchChapter, hok, h404, h]
  · intro hok h404 h403
    simp [fetchChapter, hok, h404, h403]
  · simp only [fetchChapter]
    split_ifs <;> simp

/-- Witness for C5: the four HTTP-level branches at concrete statuses. -/
theorem fetchChapter_classification_witness :
    fetchChapter "u" (.response 200 emptyDoc) =
      { result := .returned (some (extractChapterData emptyDoc "u")), navigated := false
        logged := false } ∧
    fetchChapter "u" (.response 404 emptyDoc) =
      { result := .returned none, navigated := false, logged := true } ∧
    fetchChapter "u" (.response 403 emptyDoc) =
      { result := .returned none, navigated := true, logged := true } ∧
    fetchChapter "u" (.response 500 emptyDoc) =
      { result := .returned none, navigated := false, logged := true } :=
  ⟨(fetchChapter_classification "u" 200 emptyDoc).1 (by omega),
   (fetchChapter_classification "u" 404 emptyDoc).2.1 rfl,
   (fetchChapter_classification "u" 403 emptyDoc).2.2.1 rfl,
   (fetchChapter_classification "u" 500 emptyDoc).2.2.2.1 (by omega) (by omega) (by omega)⟩

/-- C6: the scroll-progress cascade — 100 once the element's bottom has
passed the viewport top, 0 before the element enters the viewport, 0 for
a zero-height element, otherwise `100 * max(0, -top) / height` clamped to
at most 100 — and, for fixed height and viewport height, the percentage
is monotonically non-decreasing as `top` decreases. -/
theorem scroll_percentage_spec (top height vh t t' : ℚ) :
    (top ≤ -height → calculateScrollPercentage top height vh = 100) ∧
    (¬top ≤ -height → vh ≤ top → calculateScrollPercentage top height vh = 0) ∧
    (¬top ≤ -height → ¬vh ≤ top → height = 0 →
      calculateScrollPercentage top height vh = 0) ∧
    (¬top ≤ -height → ¬vh ≤ top → height ≠ 0 →
      calculateScrollPercentage top height vh = min 100 (100 * max 0 (-top) / height)) ∧
    (t' ≤ t → calculateScrollPercentage t height vh ≤ calculateScrollPercentage t' height vh) := by
  refine ⟨?_, ?_, ?_, ?_, fun hle => csp_anti height vh t t' hle⟩
  · intro h1
    unfold calculateScrollPercentage
    rw [if_pos h1]
  · intro h1 h2
    unfold calculateScrollPercentage
    rw [if_neg h1, if_pos h2]
  · intro h1 h2 h3
    unfold calculateScrollPercentage
    rw [if_neg h1, if_neg h2, if_pos h3]
  · intro h1 h2 h3
    unfold calculateScrollPercentage
    rw [if_neg h1, if_neg h2, if_neg h3]
    congr 1
    rw [mul_comm, mul_div_assoc]

/-- Witness for C6: each branch at a concrete geometry, plus one concrete
monotonicity instance. -/
theorem scroll_percentage_spec_witness :
    calculateScrollPercentage (-5) 3 10 = 100 ∧
    calculateScrollPercentage 12 3 10 = 0 ∧
    calculateScrollPercentage 5 0 10 = 0 ∧
    calculateScrollPercentage (-1) 4 10 = min 100 (100 * max 0 (-(-1) : ℚ) / 4) ∧
    calculateScrollPercentage 0 4 10 ≤ calculateScrollPercentage (-1) 4 10 :=
  ⟨(scroll_percentage_spec (-5) 3 10 0 0).1 (by norm_num),
   (scroll_percentage_spec 12 3 10 0 0).2.1 (by norm_num) (by norm_num),
   (scroll_percentage_spec 5 0 10 0 0).2.2.1 (by norm_num) (by norm_num) rfl,
   (scroll_percentage_spec (-1) 4 10 0 0).2.2.2.1 (by norm_num) (by norm_num) (by norm_num),
   (scroll_percentage_spec 0 4 10 0 (-1)).2.2.2.2 (by norm_num)⟩

/-- C9 counterexample: with the bookmark button absent and the
current-chapter element present but lacking `data-id`, the extracted
identifier is `Number(null) = 0`, not `NaN` as the claim's parenthetical
asserts for absent attributes. -/
theorem chapter_id_counterexample :
    chapterIdOf docAttrMissing = .num 0 ∧
    (extractChapterData docAttrMissing "u").id ≠ JSNum.nan := by
  decide

/-- C9 amended: the extracted identifier is always a JavaScript number —
so the `chapterId === null` diagnostic branch is unreachable and the
record is still returned carrying that number — and it is `NaN` when
the bookmark source is unusable and the current-chapter element is
absent, or when the bookmark attribute is a non-empty non-numeric
string; but when the current-chapter element exists without its
`data-id` attribute the identifier is `Number(null) = 0`, not `NaN`. -/
theorem chapter_id_amended (doc : Doc) (uri : String) :
    idNullDiagnostic doc = false ∧
    (extractChapterData doc uri).id = chapterIdOf doc ∧
    (truthy (optChainAttr doc.bookmarkDataChapter) = false →
      doc.currentChapDataId = none → chapterIdOf doc = .nan) ∧
    (truthy (optChainAttr doc.bookmarkDataChapter) = false →
      doc.currentChapDataId = some none → chapterIdOf doc = .num 0) ∧
    (∀ s : String, doc.bookmarkDataChapter = some (some s) → s ≠ "" →
      stringToNumber s = .nan → chapterIdOf doc = .nan) := by
  refine ⟨?_, rfl, ?_, ?_, ?_⟩
  · unfold idNullDiagnostic
    cases chapterIdOf doc <;> rfl
  · intro hb hc
    simp only [chapterIdOf, hb, Bool.false_eq_true, if_false]
    simp [hc, optChainAttr, jsToNumber]
  · intro hb hc
    simp only [chapterIdOf, hb, Bool.false_eq_true, if_false]
    simp [hc, optChainAttr, jsToNumber]
  · intro s hs hne hnan
    simp [chapterIdOf, hs, optChainAttr, truthy, hne, jsToNumber, hnan]

/-- Witness for C9: the diagnostic branch is dead on a concrete page, the
identifier is `NaN` when everything is absent or the bookmark attribute
is non-numeric, and `0` when only the `data-id` attribute is missing. -/
theorem chapter_id_amended_witness :
    idNullDiagnostic emptyDoc = false ∧
    chapterIdOf emptyDoc = .nan ∧
    chapterIdOf docAttrMissing = .num 0 ∧
    chapterIdOf { emptyDoc with bookmarkDataChapter := some (some "abc") } = .nan :=
  ⟨(chapter_id_amended emptyDoc "u").1,
   (chapter_id_amended emptyDoc "u").2.2.1 rfl rfl,
   (chapter_id_amended docAttrMissing "u").2.2.2.1 rfl rfl,
   (chapter_id_amended { emptyDoc with bookmarkDataChapter := some (some "abc") } "u").2.2.2.2
     "abc" rfl (by decide) (by decide)⟩

/-- C10 counterexample: the two readers' advance operations are not
observationally equivalent.  With the cursor at the end of the table of
contents, the refactored reader sets the exhaustion flag with the
in-flight flag clear, while `ChapterPage.tsx` throws on
`chapterToFetch.value` and leaves the in-flight flag stuck true; on a
thrown fetch at an in-range cursor, only the refactored reader clears
the in-flight flag. -/
theorem reader_equiv_counterexample :
    advance toc5 cursorPastEnd ctx0 .nullResult ≠
      advanceTsx toc5 cursorPastEnd ctx0 .nullResult ∧
    (advance toc5 cursorPastEnd ctx0 .nullResult).1.lastChapter = true ∧
    (advance toc5 cursorPastEnd ctx0 .nullResult).1.fetching = false ∧
    (advanceTsx toc5 cursorPastEnd ctx0 .nullResult).1.lastChapter = false ∧
    (advanceTsx toc5 cursorPastEnd ctx0 .nullResult).1.fetching = true ∧
    (advance toc5 (initState (chap 0) 0) ctx0 .threw).1.fetching = false ∧
    (advanceTsx toc5 (initState (chap 0) 0) ctx0 .threw).1.fetching = true := by
  decide

/-- C10 amended: the two advance operations agree exactly on the cases
where no exception is involved: whenever a guard flag blocks the call,
and whenever the cursor is in range and the fetch returns (a record or
null) rather than throwing. -/
theorem reader_equiv_amended (toc : List TocChapter) (s : RState) (ctx : Ctx)
    (o : Outcome) :
    (s.fetching = true ∨ s.lastChapter = true →
      advance toc s ctx o = advanceTsx toc s ctx o) ∧
    (0 ≤ s.nextIndex → s.nextIndex < (toc.length : Int) → o ≠ .threw →
      advance toc s ctx o = advanceTsx toc s ctx o) := by
  constructor
  · intro h
    unfold advance advanceTsx
    rcases h with h | h <;> simp [h]
  · intro h0 hr ho
    unfold advance advanceTsx
    by_cases hg : (s.fetching || s.lastChapter) = true
    · simp [hg]
    · have h1 : ¬(s.nextIndex = (toc.length : Int) ∨ (toc.length : Int) < s.nextIndex ∨
          s.nextIndex < 0) := by omega
      have h2 : ¬(s.nextIndex < 0 ∨ (toc.length : Int) ≤ s.nextIndex) := by omega
      cases o with
      | record c => simp [hg, h1, h2]
      | nullResult => simp [hg, h1, h2]
      | threw => exact absurd rfl ho

/-- Witness for C10 amended: at the seeded state with an in-range cursor
and a null fetch result, the two readers produce identical results. -/
theorem reader_equiv_amended_witness :
    advance toc5 (initState (chap 0) 0) ctx0 .nullResult =
      advanceTsx toc5 (initState (chap 0) 0) ctx0 .nullResult :=
  (reader_equiv_amended toc5 (initState (chap 0) 0) ctx0 .nullResult).2
    (by decide) (by decide) (by decide)

end Cenele
